import Mathlib

/-!
Verification of the content-validation and session-state core of the
travel-planner chatbot (`travel_chatbot.py`), together with its five travel
query functions.

Embedding conventions:
* Message text is modelled as its list of whitespace-separated word tokens
  (`wordsOf`).  The Python code matches keywords with `\b`-delimited regular
  expressions over the raw lower-cased text; on whitespace-separated,
  punctuation-free text this coincides with whole-token phrase matching,
  which is what the embedding implements.
* Python float arithmetic in the travel-relevance score is modelled exactly,
  as unreduced non-negative fractions (`Frac`, a numerator/denominator pair
  of naturals compared by cross-multiplication).  All denominators built by
  the code are positive.  Monetary arithmetic in the budget estimator is
  modelled over `ℚ`; `round(x, d)` is modelled as rounding `x * 10^d` to the
  nearest integer (the claims proved are robust to the tie-breaking rule).
* `random.choice` over the fixed suggestion pool is abstracted to the first
  element of the pool; no property depends on which suggestion is chosen.
* The pandas dataframes are modelled as lists of records passed explicitly
  to each query function; the CSV/JSON data files are inputs, not code.
-/

deriving instance DecidableEq for Except

namespace Travel

/-! ## Text utilities -/

/-- Whitespace as recognised by Python `str.split()` (common characters). -/
def isWS (c : Char) : Bool := c = ' ' || c = '\t' || c = '\n' || c = '\r'

def splitWordsAux : List Char → List Char → List String
  | [], [] => []
  | [], cur => [String.mk cur.reverse]
  | c :: rest, cur =>
    if isWS c then
      match cur with
      | [] => splitWordsAux rest []
      | _ => String.mk cur.reverse :: splitWordsAux rest []
    else splitWordsAux rest (c :: cur)

/-- The whitespace-separated word tokens of a string (`str.split()`). -/
def wordsOf (s : String) : List String := splitWordsAux s.data []

/-- Character-wise lower-casing (`str.lower()`). -/
def lowerStr (s : String) : String := String.mk (s.data.map Char.toLower)

/-- `str.strip()`. -/
def stripStr (s : String) : String :=
  String.mk (((s.data.dropWhile isWS).reverse.dropWhile isWS).reverse)

/-- `str.title()` restricted to space-separated words: the first character of
each word is upper-cased and the rest lower-cased. -/
def titleWord (w : String) : String :=
  match w.data with
  | [] => ""
  | c :: cs => String.mk (c.toUpper :: cs.map Char.toLower)

def joinWith (sep : String) : List String → String
  | [] => ""
  | [w] => w
  | w :: ws => w ++ sep ++ joinWith sep ws

/-- Splitting on a separator character, keeping empty segments
(the semantics of `str.split(sep)` with an explicit separator). -/
def splitCharAux (sep : Char) : List Char → List Char → List String
  | [], cur => [String.mk cur.reverse]
  | c :: rest, cur =>
    if c = sep then String.mk cur.reverse :: splitCharAux sep rest []
    else splitCharAux sep rest (c :: cur)

def splitChar (sep : Char) (s : String) : List String := splitCharAux sep s.data []

def titleStr (s : String) : String := joinWith " " ((splitChar ' ' s).map titleWord)

/-- `city.strip().title()`, the normalisation applied to every city argument. -/
def normCity (s : String) : String := titleStr (stripStr s)

/-- Splitting a string at commas (used for amenity lists). -/
def splitComma (s : String) : List String := splitChar ',' s

/-- Whether `phrase` occurs as a contiguous run of whole tokens in `text`
(the token-level rendering of a `\b`-delimited regex search). -/
def containsPhrase (phrase : List String) : List String → Bool
  | [] => phrase.isPrefixOf []
  | t@(_ :: rest) => phrase.isPrefixOf t || containsPhrase phrase rest

/-! ## Exact fractions for the relevance score -/

/-- A non-negative fraction, kept unreduced.  Models the exact value of the
Python float expressions in `_calculate_travel_relevance`; every denominator
the code builds is positive. -/
structure Frac where
  num : Nat
  den : Nat
deriving DecidableEq

def Frac.lt (a b : Frac) : Bool := decide (a.num * b.den < b.num * a.den)

/-- Python `min(a, b)` (returns `a` on ties). -/
def Frac.fmin (a b : Frac) : Frac := if Frac.lt b a then b else a

/-- Python `max(a, b)` (returns `a` on ties). -/
def Frac.fmax (a b : Frac) : Frac := if Frac.lt a b then b else a

def Frac.add (a b : Frac) : Frac :=
  ⟨a.num * b.den + b.num * a.den, a.den * b.den⟩

/-- `m / b` for a natural `m` and a fraction `b`. -/
def Frac.divNat (m : Nat) (b : Frac) : Frac := ⟨m * b.den, b.num⟩

/-! ## Lexicons (`TravelSecurityValidator.__init__`) -/

/-- All travel keywords, in the order the categories `destinations`,
`accommodation`, `activities`, `transportation`, `planning` are declared;
multi-word keywords are token sequences. -/
def travelKeywordPhrases : List (List String) :=
  [ ["city"], ["country"], ["destination"], ["place"], ["location"], ["visit"],
    ["travel", "to"], ["paris"], ["london"], ["tokyo"], ["new", "york"],
    ["dubai"], ["barcelona"], ["rome"], ["bangkok"], ["sydney"], ["mumbai"],
    ["europe"], ["asia"], ["america"], ["africa"],
    ["hotel"], ["hostel"], ["resort"], ["accommodation"], ["stay"], ["lodge"],
    ["inn"], ["apartment"], ["booking"], ["room"], ["suite"],
    ["bed", "and", "breakfast"],
    ["attraction"], ["sightseeing"], ["tour"], ["museum"], ["landmark"],
    ["monument"], ["beach"], ["park"], ["temple"], ["church"], ["castle"],
    ["gallery"], ["zoo"], ["shopping"], ["restaurant"], ["nightlife"],
    ["entertainment"],
    ["flight"], ["plane"], ["airport"], ["train"], ["bus"], ["taxi"],
    ["car", "rental"], ["transportation"], ["metro"], ["subway"], ["ferry"],
    ["cruise"],
    ["itinerary"], ["schedule"], ["plan"], ["trip"], ["vacation"], ["holiday"],
    ["journey"], ["budget"], ["cost"], ["price"], ["expense"], ["currency"],
    ["exchange"], ["visa"], ["passport"], ["weather"], ["climate"], ["season"] ]

/-- The `high_threat` security keyword tier. -/
def highThreatPhrases : List (List String) :=
  [ ["bomb"], ["terrorist"], ["kill"], ["murder"], ["attack"], ["violence"],
    ["weapon"], ["gun"], ["knife"], ["explosive"], ["threat"], ["harm"],
    ["destroy"] ]

def inappropriatePhrases : List (List String) :=
  [ ["sex"], ["porn"], ["nude"], ["adult"], ["drug"], ["cocaine"],
    ["marijuana"] ]

def travelIllegalPhrases : List (List String) :=
  [ ["visa", "fraud"], ["fake", "passport"], ["smuggling"],
    ["human", "trafficking"], ["drug", "trafficking"],
    ["money", "laundering"], ["illegal", "border"] ]

/-- Threat categories in the (insertion-ordered) iteration order of
`self.threat_words`. -/
def threatCategories : List (String × List (List String)) :=
  [ ("high_threat", highThreatPhrases),
    ("inappropriate", inappropriatePhrases),
    ("travel_illegal", travelIllegalPhrases) ]

/-- Non-travel topic categories in declaration order. -/
def nonTravelCategories : List (String × List (List String)) :=
  [ ("technology",
      [ ["programming"], ["coding"], ["software"], ["computer"], ["python"],
        ["javascript"], ["html"], ["css"], ["database"], ["api"],
        ["algorithm"] ]),
    ("entertainment",
      [ ["movie"], ["tv", "show"], ["music"], ["song"], ["game"], ["sport"],
        ["celebrity"], ["news"] ]),
    ("education",
      [ ["homework"], ["essay"], ["study"], ["exam"], ["math", "problem"],
        ["research", "paper"] ]),
    ("general",
      [ ["hello"], ["hi"], ["how", "are", "you"], ["tell", "me", "a", "joke"],
        ["what", "do", "you", "think"] ]) ]

/-! ## Content validation (`TravelSecurityValidator`) -/

/-- Number of non-overlapping keyword matches found by scanning the text left
to right, at each position trying the keyword alternatives in declaration
order (the token-level rendering of `re.findall` over the compiled
alternation of all travel keywords). -/
def countMatchesAux (kws : List (List String)) : Nat → List String → Nat
  | 0, _ => 0
  | _, [] => 0
  | Nat.succ fuel, w :: rest =>
    match kws.find? (fun kw => kw.isPrefixOf (w :: rest)) with
    | some [] => countMatchesAux kws fuel rest
    | some (_ :: kwrest) => 1 + countMatchesAux kws fuel (rest.drop kwrest.length)
    | none => countMatchesAux kws fuel rest

def countMatches (kws : List (List String)) (text : List String) : Nat :=
  countMatchesAux kws text.length text

def anyPhrase (ps : List (List String)) (text : List String) : Bool :=
  ps.any (fun p => containsPhrase p text)

/-- The pattern `\b(?:budget for|cost of).+(?:trip|travel|vacation)\b`: one of
the two lead-in phrases followed, strictly later in the text, by one of the
three trailing words. -/
def budgetPattern : List String → Bool
  | [] => false
  | t@(_ :: rest) =>
    ((["budget", "for"].isPrefixOf t || ["cost", "of"].isPrefixOf t) &&
      (t.drop 2).any (fun w => w = "trip" || w = "travel" || w = "vacation"))
    || budgetPattern rest

/-- `_calculate_travel_relevance`: keyword density score plus +0.2 for each
matching travel-intent phrase pattern, capped at 1. -/
def calculateTravelRelevance (text : List String) : Frac :=
  if text = [] then ⟨0, 1⟩
  else
    let travel_matches := countMatches travelKeywordPhrases text
    let total_words := text.length
    let keyword_score :=
      Frac.fmin (Frac.divNat travel_matches (Frac.fmax ⟨3 * total_words, 10⟩ ⟨1, 1⟩)) ⟨1, 1⟩
    let boost_count :=
      (if anyPhrase [["trip", "to"], ["travel", "to"], ["visit"],
          ["vacation", "in"], ["holiday", "in"]] text then 1 else 0)
      + (if anyPhrase [["hotel", "in"], ["stay", "in"],
          ["accommodation", "in"]] text then 1 else 0)
      + (if anyPhrase [["attractions", "in"],
          ["things", "to", "do", "in"]] text then 1 else 0)
      + (if budgetPattern text then 1 else 0)
      + (if anyPhrase [["weather", "in"], ["climate", "in"],
          ["best", "time", "to", "visit"]] text then 1 else 0)
    Frac.fmin (Frac.add keyword_score ⟨2 * boost_count, 10⟩) ⟨1, 1⟩

/-- `_check_security_threats`: first matching threat category, with its
severity (`critical` for the `high_threat` tier, else `moderate`). -/
def checkSecurityThreats (text : List String) : Option (String × String) :=
  threatCategories.findSome? (fun cs =>
    if cs.2.any (fun kw => containsPhrase kw text) then
      some (cs.1, if cs.1 = "high_threat" then "critical" else "moderate")
    else none)

/-- `_detect_non_travel_category`. -/
def detectNonTravelCategory (text : List String) : String :=
  (nonTravelCategories.findSome? (fun cs =>
    if cs.2.any (fun kw => containsPhrase kw text) then some cs.1 else none)).getD
    "other_non_travel"

def travelSuggestions : List String :=
  [ "Try asking about hotels, attractions, or itineraries for your destination!",
    "I can help you plan trips - ask about destinations, budgets, or travel recommendations!",
    "Let\x27s focus on travel planning - ask me about accommodations, activities, or trip costs!",
    "Ask me about travel topics like finding hotels, creating itineraries, or budgeting for trips!" ]

/-- `_get_travel_suggestion`; `random.choice` is abstracted to the first
element of the pool (no verified property depends on the choice). -/
def getTravelSuggestion : String := travelSuggestions.headD ""

inductive Action
  | allow
  | block
  | redirect
deriving DecidableEq

/-- The dictionary returned by `validate_content`; optional fields model keys
that only some outcomes carry. -/
structure ValidationResult where
  is_safe : Bool
  is_travel : Bool
  action : Action
  reason : String
  category : Option String
  severity : Option String
  travel_score : Option Frac
  suggestion : Option String
deriving DecidableEq

/-- `TravelSecurityValidator.validate_content`, taking the message as its
token list (empty token list models the falsy / blank-string input). -/
def validate_content (textWords : List String) : ValidationResult :=
  if textWords = [] then
    ⟨false, false, Action.block, "invalid_input", none, none, none, none⟩
  else
    let text_clean := textWords.map lowerStr
    match checkSecurityThreats text_clean with
    | some cs =>
      ⟨false, false, Action.block, "security_violation", some cs.1, some cs.2,
        none, none⟩
    | none =>
      let travel_score := calculateTravelRelevance text_clean
      if Frac.lt travel_score ⟨3, 10⟩ then
        ⟨true, false, Action.redirect, "non_travel_topic",
          some (detectNonTravelCategory text_clean), none, some travel_score,
          some getTravelSuggestion⟩
      else
        ⟨true, true, Action.allow, "valid_travel_query", none, none,
          some travel_score, none⟩

/-! ## Generic list helpers used by the query functions -/

/-- Insertion sort by a boolean "goes before or equal" test; models
`DataFrame.sort_values` (which fixes only the key order, not tie order). -/
def insertLE {α : Type} (le : α → α → Bool) (a : α) : List α → List α
  | [] => [a]
  | b :: l => if le a b then a :: b :: l else b :: insertLE le a l

def sortLE {α : Type} (le : α → α → Bool) : List α → List α
  | [] => []
  | a :: l => insertLE le a (sortLE le l)

def dedupFirstAux (seen : List String) : List String → List String
  | [] => []
  | a :: l =>
    if a ∈ seen then dedupFirstAux seen l
    else a :: dedupFirstAux (a :: seen) l

/-- Distinct elements in first-occurrence order (`Series.unique()`). -/
def dedupFirst (l : List String) : List String := dedupFirstAux [] l

/-- Lexicographic strict comparison on code points (Python string `<`). -/
def charListLT : List Char → List Char → Bool
  | [], [] => false
  | [], _ :: _ => true
  | _ :: _, [] => false
  | a :: as, b :: bs =>
    if a < b then true else if b < a then false else charListLT as bs

/-- Ascending lexicographic comparison for `sorted(...)` over strings. -/
def strLE (a b : String) : Bool := !(charListLT b.data a.data)

def listMinD : List Nat → Nat
  | [] => 0
  | a :: l => l.foldl Nat.min a

def listMaxD : List Nat → Nat
  | [] => 0
  | a :: l => l.foldl Nat.max a

/-- `round(x, d)` over exact rationals: round `x·10^d` to the nearest
integer.  (Python rounds halves to even; every claim proved below is robust
to the tie-breaking rule, only the error bound of 1/2 ulp is used.) -/
def roundTo (d : Nat) (x : ℚ) : ℚ :=
  ((round (x * (10 : ℚ) ^ d) : ℤ) : ℚ) / (10 : ℚ) ^ d

/-! ## Hotel search (`TravelPlannerFunctions.search_hotels`) -/

/-- A row of the `travel_hotels.csv` dataframe. -/
structure Hotel where
  hotel_id : String
  name : String
  city : String
  category : String
  price_per_night : Nat
  rating : ℚ
  amenities : String
  address : String
  availability : Bool
  country : String
deriving DecidableEq

structure HotelOut where
  id : String
  name : String
  category : String
  price_per_night : Nat
  rating : ℚ
  amenities : List String
  address : String
  available : Bool
  country : String
deriving DecidableEq

structure HotelStats where
  average_price : Nat
  price_min : Nat
  price_max : Nat
  average_rating : ℚ
deriving DecidableEq

structure HotelFilters where
  budget_max : Option Int
  category : Option String
  availability_check : Bool
deriving DecidableEq

structure HotelsSuccess where
  city : String
  country : String
  hotels_found : Nat
  hotels : List HotelOut
  statistics : HotelStats
  filters_applied : HotelFilters
deriving DecidableEq

inductive HotelsError
  | invalidCity
  | dbUnavailable
  | unknownCity (city : String) (available_cities : List String)
      (suggestion : String)
  | invalidBudget
  | invalidCategory
  | noMatch (city : String) (suggestion : String)
deriving DecidableEq

/-- Sort key of `sort_values(['rating', 'price_per_night'],
ascending=[False, True])`. -/
def hotelLE (a b : Hotel) : Bool :=
  decide (b.rating < a.rating) ||
    (decide (a.rating = b.rating) && decide (a.price_per_night ≤ b.price_per_night))

def firstCountry : List Hotel → String
  | [] => ""
  | h :: _ => h.country

def hotelToOut (h : Hotel) : HotelOut :=
  ⟨h.hotel_id, h.name, h.category, h.price_per_night, h.rating,
    splitComma h.amenities, h.address, h.availability, h.country⟩

def search_hotels (hotels_df : List Hotel) (city : String)
    (budget_max : Option Int) (category : Option String)
    (check_availability : Bool) : Except HotelsError HotelsSuccess :=
  if city = "" then Except.error HotelsError.invalidCity
  else
    let city1 := normCity city
    if hotels_df = [] then Except.error HotelsError.dbUnavailable
    else
      let city_hotels :=
        hotels_df.filter (fun h => lowerStr h.city = lowerStr city1)
      if city_hotels = [] then
        let available_cities :=
          sortLE strLE (dedupFirst (hotels_df.map Hotel.city))
        Except.error (HotelsError.unknownCity city1 available_cities
          ("Try one of these cities: " ++
            joinWith ", " (available_cities.take 5)))
      else
        -- `if budget_max:` — Python truthiness: the filter (and its range
        -- validation) is silently skipped when budget_max is None or 0.
        let step1 : Except HotelsError (List Hotel) :=
          match budget_max with
          | none => Except.ok city_hotels
          | some b =>
            if b = 0 then Except.ok city_hotels
            else if b < 0 || 5000 < b then Except.error HotelsError.invalidBudget
            else Except.ok
              (city_hotels.filter (fun h => (h.price_per_night : Int) ≤ b))
        match step1 with
        | Except.error e => Except.error e
        | Except.ok l1 =>
          -- `if category:` — likewise skipped for None or the empty string.
          let step2 : Except HotelsError (List Hotel) :=
            match category with
            | none => Except.ok l1
            | some c =>
              if c = "" then Except.ok l1
              else if ["luxury", "mid-range", "budget"].contains (lowerStr c)
              then Except.ok
                (l1.filter (fun h => lowerStr h.category = lowerStr c))
              else Except.error HotelsError.invalidCategory
          match step2 with
          | Except.error e => Except.error e
          | Except.ok l2 =>
            let l3 := if check_availability
              then l2.filter (fun h => h.availability) else l2
            if l3 = [] then
              Except.error (HotelsError.noMatch city1
                "Try adjusting your budget or category preferences")
            else
              let results := (sortLE hotelLE l3).take 8
              let hotels_list := results.map hotelToOut
              let prices := results.map Hotel.price_per_night
              Except.ok
                ⟨city1, firstCountry results, hotels_list.length, hotels_list,
                  ⟨prices.sum / results.length, listMinD prices,
                    listMaxD prices,
                    roundTo 1 ((results.map Hotel.rating).sum / results.length)⟩,
                  ⟨budget_max, category, check_availability⟩⟩

def hotelsOf : Except HotelsError HotelsSuccess → List HotelOut
  | Except.ok r => r.hotels
  | Except.error _ => []

/-! ## Attractions (`TravelPlannerFunctions.get_attractions`) -/

/-- A row of the `travel_attractions.csv` dataframe. -/
structure Attraction where
  attraction_id : String
  name : String
  city : String
  category : String
  entry_fee : Nat
  duration_hours : ℚ
  rating : ℚ
  description : String
  opening_hours : String
  country : String
deriving DecidableEq

structure AttractionOut where
  id : String
  name : String
  category : String
  entry_fee : Nat
  duration_hours : ℚ
  rating : ℚ
  description : String
  opening_hours : String
  country : String
deriving DecidableEq

structure AttrStats where
  average_entry_fee : Nat
  free_attractions : Nat
  average_duration : ℚ
  average_rating : ℚ
deriving DecidableEq

structure AttrSuccess where
  city : String
  country : String
  attractions_found : Nat
  attractions : List AttractionOut
  categories_summary : List (String × Nat × ℚ × ℚ)
  statistics : AttrStats
  filter_category : Option String
  filter_max_entry_fee : Option Int
deriving DecidableEq

inductive AttrError
  | invalidCity
  | dbUnavailable
  | unknownCity (city : String) (available_cities : List String)
      (suggestion : String)
  | invalidCategory (category : String) (available_categories : List String)
  | invalidFee
  | noMatch (city : String) (suggestion : String)
deriving DecidableEq

/-- Sort key of `sort_values(['rating', 'entry_fee'],
ascending=[False, True])`. -/
def attrLE (a b : Attraction) : Bool :=
  decide (b.rating < a.rating) ||
    (decide (a.rating = b.rating) && decide (a.entry_fee ≤ b.entry_fee))

def firstCountryA : List Attraction → String
  | [] => ""
  | a :: _ => a.country

def attrToOut (a : Attraction) : AttractionOut :=
  ⟨a.attraction_id, a.name, a.category, a.entry_fee, a.duration_hours,
    a.rating, a.description, a.opening_hours, a.country⟩

/-- `groupby('category').agg(count, mean fee, mean rating).round(1)`, with
the keys in ascending order as pandas produces them. -/
def categoriesSummary (results : List Attraction) :
    List (String × Nat × ℚ × ℚ) :=
  (sortLE strLE (dedupFirst (results.map Attraction.category))).map (fun c =>
    let grp := results.filter (fun a => a.category = c)
    (c, grp.length,
      roundTo 1 (((grp.map Attraction.entry_fee).sum : ℚ) / grp.length),
      roundTo 1 ((grp.map Attraction.rating).sum / grp.length)))

def get_attractions (attractions_df : List Attraction) (city : String)
    (category : Option String) (max_entry_fee : Option Int) :
    Except AttrError AttrSuccess :=
  if city = "" then Except.error AttrError.invalidCity
  else
    let city1 := normCity city
    if attractions_df = [] then Except.error AttrError.dbUnavailable
    else
      let city_attractions :=
        attractions_df.filter (fun a => lowerStr a.city = lowerStr city1)
      if city_attractions = [] then
        let available_cities :=
          sortLE strLE (dedupFirst (attractions_df.map Attraction.city))
        Except.error (AttrError.unknownCity city1 available_cities
          ("Try one of these cities: " ++
            joinWith ", " (available_cities.take 5)))
      else
        -- `if category:` — truthiness: skipped for None or empty string.
        let step1 : Except AttrError (List Attraction) :=
          match category with
          | none => Except.ok city_attractions
          | some c =>
            if c = "" then Except.ok city_attractions
            else
              let available_categories :=
                sortLE strLE (dedupFirst (attractions_df.map Attraction.category))
              if available_categories.contains c then
                Except.ok (city_attractions.filter (fun a => a.category = c))
              else Except.error (AttrError.invalidCategory c available_categories)
        match step1 with
        | Except.error e => Except.error e
        | Except.ok l1 =>
          -- `if max_entry_fee is not None:` — a genuine None test, no
          -- truthiness issue here.
          let step2 : Except AttrError (List Attraction) :=
            match max_entry_fee with
            | none => Except.ok l1
            | some f =>
              if f < 0 then Except.error AttrError.invalidFee
              else Except.ok (l1.filter (fun a => (a.entry_fee : Int) ≤ f))
          match step2 with
          | Except.error e => Except.error e
          | Except.ok l2 =>
            if l2 = [] then
              Except.error (AttrError.noMatch city1
                "Try adjusting your category or budget filters")
            else
              let results := (sortLE attrLE l2).take 12
              let fees := results.map Attraction.entry_fee
              Except.ok
                ⟨city1, firstCountryA results, results.length,
                  results.map attrToOut, categoriesSummary results,
                  ⟨fees.sum / results.length,
                    (results.filter (fun a => a.entry_fee = 0)).length,
                    roundTo 1 ((results.map Attraction.duration_hours).sum / results.length),
                    roundTo 1 ((results.map Attraction.rating).sum / results.length)⟩,
                  category, max_entry_fee⟩

/-! ## Itinerary creation (`TravelPlannerFunctions.create_itinerary`) -/

/-- Modelled from the spec: a day-plan of a curated itinerary template.  The
template JSON file (`travel_itinerary_templates.json`) is not part of the
source tree; the spec describes the Itinerary Template Store as a mapping
`city -> duration_key -> ordered sequence of day-plans, each day-plan
carrying an estimated_cost`, which is also the only field the code reads. -/
structure TemplateDay where
  estimated_cost : Nat
deriving DecidableEq

/-- First-match association-list lookup (Python `dict` access). -/
def lookupA {κ β : Type} [DecidableEq κ] : List (κ × β) → κ → Option β
  | [], _ => none
  | p :: rest, k => if p.1 = k then some p.2 else lookupA rest k

/-- The itinerary template store: `city -> duration (days) -> day plans`. -/
def Templates : Type := List (String × List (Nat × List TemplateDay))

def templLookup (templates : Templates) (city : String) (d : Nat) :
    Option (List TemplateDay) :=
  match lookupA templates city with
  | none => none
  | some m => lookupA m d

/-- One day of a returned itinerary: either a curated template day (returned
verbatim; only its cost is modelled) or a generated day plan. -/
inductive ItinDay
  | curated (estimated_cost : Nat)
  | generated (day : Nat) (title : String) (activities : List String)
      (attraction_details : List AttractionOut) (meals : List String)
      (estimated_cost : Nat) (total_duration : ℚ) (transportation : String)
deriving DecidableEq

def ItinDay.cost : ItinDay → Nat
  | ItinDay.curated c => c
  | ItinDay.generated _ _ _ _ _ c _ _ => c

/-- The attraction ids assigned to a day. -/
def ItinDay.ids : ItinDay → List String
  | ItinDay.curated _ => []
  | ItinDay.generated _ _ _ ds _ _ _ _ => ds.map AttractionOut.id

structure ItinSuccess where
  city : String
  duration_days : Nat
  itinerary_type : String
  itinerary : List ItinDay
  total_estimated_cost : Nat
  daily_average_cost : ℚ
  attractions_included : Option Nat
  variety_achieved : Option Nat
  interests : Option String
  notes : String
deriving DecidableEq

inductive ItinError
  | invalidCity
  | invalidDuration
  | insufficientData (duration_days : Nat) (city : String) (suggestion : String)
  | fromAttractions (e : AttrError)
deriving DecidableEq

/-- The per-day category pass: for each category group in first-appearance
order, pick the first not-yet-used attraction of that group while the day
still has room (`for category in categorized_attractions: ...`). -/
def pickByCats (quota : Nat) :
    List (String × List AttractionOut) → List String → List AttractionOut →
      List AttractionOut × List String
  | [], used, acc => (acc, used)
  | (_, grp) :: rest, used, acc =>
    match grp.filter (fun a => decide (a.id ∉ used)) with
    | [] => pickByCats quota rest used acc
    | a :: _ =>
      if acc.length < quota then
        pickByCats quota rest (a.id :: used) (acc ++ [a])
      else pickByCats quota rest used acc

/-- The fill pass (`while len(day_attractions) < attractions_per_day`): keep
taking the first unused attraction from the pool until the quota is reached
or the pool is exhausted.  The fuel argument is the number of free slots,
which the loop decreases by exactly one per iteration. -/
def fillRemaining (pool : List AttractionOut) :
    Nat → List String → List AttractionOut → List AttractionOut × List String
  | 0, used, acc => (acc, used)
  | Nat.succ fuel, used, acc =>
    match pool.filter (fun a => decide (a.id ∉ used)) with
    | [] => (acc, used)
    | a :: _ => fillRemaining pool fuel (a.id :: used) (acc ++ [a])

def buildDay (pool : List AttractionOut)
    (catGroups : List (String × List AttractionOut)) (quota : Nat)
    (used : List String) : List AttractionOut × List String :=
  let p := pickByCats quota catGroups used []
  fillRemaining pool (quota - p.1.length) p.2 p.1

/-- The day loop: one `(day index, attractions)` pair per remaining day,
threading the global used-attraction set; also returns the final used set. -/
def buildDays (pool : List AttractionOut)
    (catGroups : List (String × List AttractionOut)) (quota : Nat) :
    Nat → Nat → List String → List (Nat × List AttractionOut) × List String
  | 0, _, used => ([], used)
  | Nat.succ k, day, used =>
    let d := buildDay pool catGroups quota used
    let rest := buildDays pool catGroups quota k (day + 1) d.2
    ((day, d.1) :: rest.1, rest.2)

def mkDayPlan (city : String) (p : Nat × List AttractionOut) : ItinDay :=
  ItinDay.generated p.1
    ("Day " ++ toString p.1 ++ " - " ++ city ++ " Exploration")
    (p.2.map AttractionOut.name) p.2
    ["Local breakfast", "Regional lunch", "Traditional dinner"]
    (50 + (p.2.map AttractionOut.entry_fee).sum)
    ((p.2.map AttractionOut.duration_hours).sum)
    "Public transport + Walking"

/-- `TravelPlannerFunctions.create_itinerary`.  `duration_days` is a natural
number; the code rejects values outside `[1, 14]`. -/
def create_itinerary (attractions_df : List Attraction)
    (templates : Templates) (city : String) (duration_days : Nat)
    (interests : Option String) : Except ItinError ItinSuccess :=
  if city = "" then Except.error ItinError.invalidCity
  else if duration_days < 1 ∨ 14 < duration_days then
    Except.error ItinError.invalidDuration
  else
    let city1 := normCity city
    match templLookup templates city1 duration_days with
    | some template_itinerary =>
      let itin := template_itinerary.map
        (fun d => ItinDay.curated d.estimated_cost)
      let total := (itin.map ItinDay.cost).sum
      Except.ok
        ⟨city1, duration_days, "curated_template", itin, total,
          roundTo 2 ((total : ℚ) / duration_days), none, none, none,
          "This is a curated itinerary template based on popular attractions and activities."⟩
    | none =>
      match get_attractions attractions_df city1 none none with
      | Except.error e => Except.error (ItinError.fromAttractions e)
      | Except.ok ar =>
        let attractions := ar.attractions
        if attractions.length < duration_days * 2 then
          Except.error (ItinError.insufficientData duration_days city1
            "Try a shorter duration or a different destination")
        else
          let attractions_per_day := max 2 (attractions.length / duration_days)
          let catGroups :=
            (dedupFirst (attractions.map AttractionOut.category)).map
              (fun c => (c, attractions.filter (fun a => a.category = c)))
          let days := buildDays attractions catGroups attractions_per_day
            duration_days 1 []
          let itin := days.1.map (mkDayPlan city1)
          let total := (itin.map ItinDay.cost).sum
          Except.ok
            ⟨city1, duration_days, "custom_generated", itin, total,
              roundTo 2 ((total : ℚ) / duration_days), some days.2.length,
              some catGroups.length, interests,
              "This is a custom itinerary generated from available attractions data."⟩

def itinTotalOf : Except ItinError ItinSuccess → Nat
  | Except.ok r => r.total_estimated_cost
  | Except.error _ => 0

/-- The property claimed of every produced itinerary: no attraction id on two
different days, and the total cost is the sum of the per-day costs. -/
def itineraryOk : Except ItinError ItinSuccess → Prop
  | Except.error _ => True
  | Except.ok r =>
    List.Pairwise (fun d1 d2 => ∀ x ∈ ItinDay.ids d1, x ∉ ItinDay.ids d2)
      r.itinerary ∧
    r.total_estimated_cost = (r.itinerary.map ItinDay.cost).sum

/-! ## Budget estimation (`TravelPlannerFunctions.get_travel_budget_estimate`) -/

structure BudgetCategoryLine where
  total : ℚ
  daily : ℚ
  percentage : ℚ
deriving DecidableEq

structure BudgetBreakdown where
  accommodation : BudgetCategoryLine
  attractions : BudgetCategoryLine
  avg_per_attraction : ℚ
  meals : BudgetCategoryLine
  transportation : BudgetCategoryLine
  miscellaneous : BudgetCategoryLine
  total : ℚ
deriving DecidableEq

/-- The success payload; the two `tip_*` fields model the numeric content of
the human-readable `budget_tips` strings. -/
structure BudgetSuccess where
  city : String
  duration_days : Nat
  accommodation_category : String
  budget_breakdown : BudgetBreakdown
  daily_average : ℚ
  comparison_budget : ℚ
  comparison_midrange : ℚ
  comparison_luxury : ℚ
  tip_free_attractions_saving : ℚ
  tip_meals_saving : ℚ
deriving DecidableEq

inductive BudgetError
  | invalidCity
  | invalidDuration
  | invalidCategory
deriving DecidableEq

def basePrices : List (String × ℚ) :=
  [("luxury", 400), ("mid-range", 150), ("budget", 60)]

def cityMultipliers : List (String × ℚ) :=
  [ ("Paris", 13/10), ("London", 14/10), ("Tokyo", 12/10),
    ("New York", 15/10), ("Dubai", 11/10), ("Barcelona", 9/10), ("Rome", 1),
    ("Bangkok", 6/10), ("Sydney", 11/10), ("Mumbai", 5/10) ]

def mealCosts : List (String × Nat) :=
  [ ("Paris", 70), ("London", 65), ("Tokyo", 55), ("New York", 80),
    ("Dubai", 60), ("Barcelona", 45), ("Rome", 50), ("Bangkok", 25),
    ("Sydney", 60), ("Mumbai", 20) ]

def mealsDaily (city1 : String) : Nat := (lookupA mealCosts city1).getD 50

def transportDaily (city1 : String) : Nat :=
  if city1 = "New York" ∨ city1 = "London" ∨ city1 = "Paris" then 30 else 20

/-- Fallback nightly price: base price for the category scaled by the city
multiplier, truncated to an integer (`int(...)`). -/
def fallbackPrice (city1 cat : String) : Nat :=
  (Int.floor (((lookupA basePrices cat).getD 0) *
    ((lookupA cityMultipliers city1).getD 1))).toNat

/-- Hotel price source: live average from `search_hotels` when it succeeds
with a non-empty hotel list, else the fallback table. -/
def avgHotelPrice (hotels_df : List Hotel) (city1 cat : String) : Nat :=
  match search_hotels hotels_df city1 none (some cat) true with
  | Except.ok r =>
    if r.hotels = [] then fallbackPrice city1 cat
    else r.statistics.average_price
  | Except.error _ => fallbackPrice city1 cat

/-- Attraction cost source: mean entry fee over the first `3 * days`
attractions when available, else the flat fallback of 20. -/
def avgAttractionCost (attractions_df : List Attraction) (city1 : String)
    (days : Nat) : ℚ :=
  match get_attractions attractions_df city1 none none with
  | Except.ok r =>
    if r.attractions = [] then 20
    else
      let data := r.attractions.take (days * 3)
      ((data.map AttractionOut.entry_fee).sum : ℚ) / data.length
  | Except.error _ => 20

/-- The budget composition and derived output, given the resolved nightly
hotel price and mean attraction cost. -/
def budgetCore (city1 : String) (days : Nat) (cat : String) (hp : Nat)
    (ac : ℚ) : BudgetSuccess :=
  let accommodation_total : ℚ := (hp : ℚ) * days
  let attractions_total : ℚ := ac * days * (5/2)
  let meals_total : ℚ := (mealsDaily city1 : ℚ) * days
  let transport_total : ℚ := (transportDaily city1 : ℚ) * days
  let subtotal := accommodation_total + attractions_total + meals_total +
    transport_total
  let misc := subtotal * (3/20)
  let total := subtotal + misc
  ⟨city1, days, cat,
    ⟨⟨roundTo 2 accommodation_total, roundTo 2 (accommodation_total / days),
        roundTo 1 (accommodation_total / total * 100)⟩,
      ⟨roundTo 2 attractions_total, roundTo 2 (attractions_total / days),
        roundTo 1 (attractions_total / total * 100)⟩,
      roundTo 2 ac,
      ⟨roundTo 2 meals_total, roundTo 2 ((mealsDaily city1 : ℚ)),
        roundTo 1 (meals_total / total * 100)⟩,
      ⟨roundTo 2 transport_total, roundTo 2 ((transportDaily city1 : ℚ)),
        roundTo 1 (transport_total / total * 100)⟩,
      ⟨roundTo 2 misc, roundTo 2 (misc / days),
        roundTo 1 (misc / total * 100)⟩,
      roundTo 2 total⟩,
    roundTo 2 (total / days),
    roundTo 2 (total * (7/10)), roundTo 2 total, roundTo 2 (total * (3/2)),
    roundTo 2 (attractions_total * (3/10)), roundTo 2 (meals_total * (2/5))⟩

def get_travel_budget_estimate (hotels_df : List Hotel)
    (attractions_df : List Attraction) (city : String) (duration_days : Nat)
    (accommodation_category : String) : Except BudgetError BudgetSuccess :=
  if city = "" then Except.error BudgetError.invalidCity
  else if duration_days < 1 ∨ 30 < duration_days then
    Except.error BudgetError.invalidDuration
  else
    let city1 := normCity city
    if accommodation_category = "luxury" ∨
        accommodation_category = "mid-range" ∨
        accommodation_category = "budget" then
      Except.ok (budgetCore city1 duration_days accommodation_category
        (avgHotelPrice hotels_df city1 accommodation_category)
        (avgAttractionCost attractions_df city1 duration_days))
    else Except.error BudgetError.invalidCategory

/-- The property claimed of every successful budget estimate: the five
percentage shares sum to 100 within rounding tolerance, and the cross-category
comparison is strictly ordered. -/
def budgetOk : Except BudgetError BudgetSuccess → Prop
  | Except.error _ => True
  | Except.ok r =>
    |r.budget_breakdown.accommodation.percentage +
        r.budget_breakdown.attractions.percentage +
        r.budget_breakdown.meals.percentage +
        r.budget_breakdown.transportation.percentage +
        r.budget_breakdown.miscellaneous.percentage - 100| ≤ 1/4 ∧
    r.comparison_budget < r.comparison_midrange ∧
    r.comparison_midrange < r.comparison_luxury

/-! ## Sessions and the chat endpoint (`chat`, `reset_chat`,
`session_status`) -/

/-- A conversation message as stored in session history. -/
structure Message where
  role : String
  content : Option String
  function_call : Option (String × String)
deriving DecidableEq

def Message.user (s : String) : Message := ⟨"user", some s, none⟩

def Message.assistantText (s : String) : Message := ⟨"assistant", some s, none⟩

def Message.functionCallMsg (name args : String) : Message :=
  ⟨"assistant", none, some (name, args)⟩

def Message.functionResultMsg (name result : String) : Message :=
  ⟨"function", some result, none⟩

/-- A session record (`conversation_sessions[session_id]`); the wall-clock
`created_at` timestamp is outside the model. -/
structure Session where
  messages : List Message
  message_count : Nat
  off_topic_warnings : Nat
  security_violations : Nat
deriving DecidableEq

def freshSession : Session := ⟨[], 0, 0, 0⟩

def findSession : List (String × Session) → String → Option Session
  | [], _ => none
  | p :: rest, k => if p.1 = k then some p.2 else findSession rest k

def insertSession : List (String × Session) → String → Session →
    List (String × Session)
  | [], k, s => [(k, s)]
  | p :: rest, k, s =>
    if p.1 = k then (k, s) :: rest else p :: insertSession rest k s

def eraseSession (st : List (String × Session)) (k : String) :
    List (String × Session) :=
  st.filter (fun p => p.1 ≠ k)

/-- Oracle for the model-interaction phase of a turn (everything from the
first OpenAI call to the final reply).  The external model is a black box, so
its possible behaviours are enumerated: an unrecovered exception raised while
processing the response (`raised`, caught only by the endpoint's top-level
handler), a `None` from the wrapped OpenAI call, a plain text reply, a
function call with malformed JSON arguments, or a function call (with the
serialized transcript strings and an optional second-call reply). -/
inductive ModelPhase
  | raised
  | apiFailure
  | textReply (reply : String)
  | badFunctionArgs (name : String)
  | functionCall (name argsJson resultJson fallbackInfo : String)
      (second : Option String)
deriving DecidableEq

inductive ChatResponse
  | noMessage
  | rateLimited
  | securityReset (message reason : String)
  | securityBlocked (message : String) (violations : Nat)
  | offTopic (message : String) (category : Option String) (warnings : Nat)
  | serviceRetry
  | invalidFunctionCall
  | unknownFunction (name : String)
  | answered (message : String) (function_called : Option String)
  | serviceUnavailable
deriving DecidableEq

/-- The keys of `function_mapping`. -/
def functionNames : List String :=
  [ "search_hotels", "get_attractions", "create_itinerary",
    "get_travel_budget_estimate", "check_weather_recommendation" ]

def offTopicMessage (warnings : Nat) (suggestion : Option String) : String :=
  if warnings = 1 then
    "I\x27m a travel planning assistant and can only help with travel-related queries. "
      ++ suggestion.getD "Try asking about travel planning!"
  else if warnings = 2 then
    "I\x27m specifically designed for travel planning only. Please ask about destinations, hotels, attractions, itineraries, or travel budgets."
  else if 3 ≤ warnings then
    "I can ONLY assist with travel planning. I cannot help with other topics. Please ask about: hotels, attractions, itineraries, travel budgets, or destination recommendations."
  else
    "I\x27m here exclusively for travel assistance. " ++ suggestion.getD ""

/-- The model-interaction phase: session mutations and response for each
possible oracle outcome.  Matches the `call_openai_with_functions` /
function-dispatch block of `chat`; the only session mutations in this phase
are `session['messages'].extend(...)` calls. -/
def applyModelPhase (mp : ModelPhase) (s : Session) (userMessage : String) :
    ChatResponse × Session :=
  match mp with
  | ModelPhase.raised => (ChatResponse.serviceUnavailable, s)
  | ModelPhase.apiFailure => (ChatResponse.serviceRetry, s)
  | ModelPhase.textReply reply =>
    (ChatResponse.answered reply none,
      ⟨s.messages ++ [Message.user userMessage, Message.assistantText reply],
        s.message_count, s.off_topic_warnings, s.security_violations⟩)
  | ModelPhase.badFunctionArgs _ => (ChatResponse.invalidFunctionCall, s)
  | ModelPhase.functionCall name argsJson resultJson fallbackInfo second =>
    if functionNames.contains name then
      match second with
      | some finalReply =>
        (ChatResponse.answered finalReply (some name),
          ⟨s.messages ++
            [Message.user userMessage, Message.functionCallMsg name argsJson,
              Message.functionResultMsg name resultJson,
              Message.assistantText finalReply],
            s.message_count, s.off_topic_warnings, s.security_violations⟩)
      | none =>
        (ChatResponse.answered
            ("I found travel information for you! " ++ fallbackInfo)
            (some name),
          ⟨s.messages ++
            [Message.user userMessage,
              Message.assistantText
                ("I found travel information for you! " ++ fallbackInfo)],
            s.message_count, s.off_topic_warnings, s.security_violations⟩)
    else (ChatResponse.unknownFunction name, s)

/-- The `/api/chat` endpoint for one turn: lazy session creation, the
turn-start `message_count` increment, rate limiting, content validation with
the violation / off-topic counters, and the model phase. -/
def chatStep (mp : ModelPhase) (store : List (String × Session))
    (session_id userMessage : String) :
    ChatResponse × List (String × Session) :=
  if wordsOf userMessage = [] then (ChatResponse.noMessage, store)
  else
    let s0 := (findSession store session_id).getD freshSession
    let s1 : Session := ⟨s0.messages, s0.message_count + 1,
      s0.off_topic_warnings, s0.security_violations⟩
    if 50 < s1.message_count then
      (ChatResponse.rateLimited, insertSession store session_id s1)
    else
      let v := validate_content (wordsOf userMessage)
      if v.is_safe = false then
        let s2 : Session := ⟨s1.messages, s1.message_count,
          s1.off_topic_warnings, s1.security_violations + 1⟩
        if 2 ≤ s2.security_violations then
          (ChatResponse.securityReset
            "Chat has been reset due to security violations. Let\x27s start fresh with safe travel planning!"
            "security",
            insertSession store session_id freshSession)
        else
          (ChatResponse.securityBlocked
            "I can only assist with safe travel planning. Please ask about hotels, attractions, itineraries, or travel advice."
            s2.security_violations,
            insertSession store session_id s2)
      else if v.is_travel = false then
        let s2 : Session := ⟨s1.messages, s1.message_count,
          s1.off_topic_warnings + 1, s1.security_violations⟩
        (ChatResponse.offTopic (offTopicMessage s2.off_topic_warnings
            v.suggestion) v.category s2.off_topic_warnings,
          insertSession store session_id s2)
      else
        let r := applyModelPhase mp s1 userMessage
        (r.1, insertSession store session_id r.2)

structure ResetResponse where
  success : Bool
  message : String
  session_reset : Bool
deriving DecidableEq

def resetAck : ResetResponse :=
  ⟨true,
    "Chat reset! Ready to help you plan your next adventure. Where would you like to travel?",
    true⟩

/-- The `/api/reset-chat` endpoint: `del conversation_sessions[session_id]`
when the key is present, then an unconditional success acknowledgement. -/
def reset_chat (store : List (String × Session)) (session_id : String) :
    ResetResponse × List (String × Session) :=
  (resetAck, eraseSession store session_id)

inductive StatusResponse
  | active (message_count off_topic_warnings security_violations : Nat)
  | inactive
deriving DecidableEq

/-- The `/api/session-status` endpoint. -/
def session_status (store : List (String × Session)) (session_id : String) :
    StatusResponse :=
  match findSession store session_id with
  | some s => StatusResponse.active s.message_count s.off_topic_warnings
      s.security_violations
  | none => StatusResponse.inactive

/-! ## Small concrete datasets used for witnesses -/

def demoHotels : List Hotel :=
  [ ⟨"H1", "Hotel Lumiere", "Paris", "mid-range", 250, 4, "wifi,breakfast",
      "1 Rue de Paris", true, "France"⟩,
    ⟨"H2", "Thames Inn", "London", "budget", 90, 3, "wifi", "2 River Road",
      true, "UK"⟩ ]

/-- A dataset whose only Rome hotel is unavailable, to exercise the
empty-after-filtering error. -/
def demoHotelsClosed : List Hotel :=
  [ ⟨"H3", "Closed Inn", "Rome", "budget", 80, 3, "wifi", "3 Via Roma",
      false, "Italy"⟩ ]

def demoAttractions : List Attraction :=
  [ ⟨"A1", "Louvre Museum", "Paris", "Museum", 20, 3, 5, "Art museum",
      "9-18", "France"⟩,
    ⟨"A2", "Eiffel Tower", "Paris", "Landmark", 25, 2, 5, "Iron tower",
      "9-23", "France"⟩,
    ⟨"A3", "Notre-Dame", "Paris", "Religious", 0, 1, 4, "Cathedral",
      "8-19", "France"⟩,
    ⟨"A4", "Seine Cruise", "Paris", "Entertainment", 15, 2, 4, "River cruise",
      "10-22", "France"⟩,
    ⟨"A5", "British Museum", "London", "Museum", 0, 3, 5, "History museum",
      "10-17", "UK"⟩ ]

def demoTemplates : Templates :=
  [ ("Paris", [(3, [⟨100⟩, ⟨120⟩, ⟨80⟩])]) ]

/-- A store whose session has one prior security violation. -/
def demoStore1 : List (String × Session) :=
  [ ("s", ⟨[Message.user "hello there"], 3, 0, 1⟩) ]

/-- A store with a single fresh session. -/
def demoStoreFresh : List (String × Session) := [("s", freshSession)]

/-- A store with an active default session, for the reset endpoint. -/
def demoStoreReset : List (String × Session) :=
  [ ("default", ⟨[Message.user "hi there"], 2, 1, 0⟩) ]

/-! ## Theorems -/

/-- Claim C1: every validation result of `validate_content` satisfies the
action invariant — `is_safe = false` forces `action = block`, `is_safe = true`
with `is_travel = false` forces `action = redirect`, and `is_safe = true` with
`is_travel = true` forces `action = allow`; the single computed `action` field
means exactly one action applies per message. -/
theorem validate_content_action_invariant (ts : List String) :
    (validate_content ts).action =
      (if (validate_content ts).is_safe then
        (if (validate_content ts).is_travel then Action.allow
         else Action.redirect)
       else Action.block) := by
  unfold validate_content
  by_cases h : ts = []
  · simp [h]
  · simp only [if_neg h]
    cases hc : checkSecurityThreats (ts.map lowerStr) with
    | some cs => simp
    | none =>
      by_cases hs :
          Frac.lt (calculateTravelRelevance (ts.map lowerStr)) ⟨3, 10⟩ <;>
        simp [hs]

/-- Claim C2: any text containing a whole-word occurrence of a `high_threat`
keyword is classified unsafe with severity `critical` and action `block`,
regardless of the rest of the text — the threat scan runs first, the
`high_threat` tier is tried first, and a match short-circuits travel
scoring. -/
theorem high_threat_forces_critical_block (ts : List String)
    (h : ∃ kw ∈ highThreatPhrases,
      containsPhrase kw (ts.map lowerStr) = true) :
    (validate_content ts).is_safe = false ∧
    (validate_content ts).severity = some "critical" ∧
    (validate_content ts).action = Action.block := by
  obtain ⟨kw, hkw, hmatch⟩ := h
  have hkwne : kw ≠ [] := by
    have hall : ∀ k ∈ highThreatPhrases, k ≠ [] := by decide
    exact hall kw hkw
  have hne : ts ≠ [] := by
    intro he
    subst he
    rw [show (([] : List String).map lowerStr) = [] from rfl] at hmatch
    unfold containsPhrase at hmatch
    cases kw with
    | nil => exact hkwne rfl
    | cons a as => simp [List.isPrefixOf] at hmatch
  have hany :
      highThreatPhrases.any
        (fun k => containsPhrase k (ts.map lowerStr)) = true :=
    List.any_eq_true.mpr ⟨kw, hkw, hmatch⟩
  have hth : checkSecurityThreats (ts.map lowerStr) =
      some ("high_threat", "critical") := by
    unfold checkSecurityThreats threatCategories
    rw [List.findSome?_cons]
    simp [hany]
  unfold validate_content
  simp [if_neg hne, hth]

/-- Claim C4 is violated by the code: `search_hotels("Paris", budget_max=0)`
supplies a budget inside [0, 5000], yet the result is a success whose only
hotel costs 250 per night — `if budget_max:` is false for 0, so the range
validation and the price filter are both silently skipped. -/
theorem search_hotels_zero_budget_not_filtered :
    (search_hotels demoHotels "Paris" (some 0) none true).isOk = true ∧
    (hotelsOf (search_hotels demoHotels "Paris" (some 0) none true)).map
      HotelOut.price_per_night = [250] :=
  ⟨by decide, by decide⟩

/-- Claim C7: a city absent from a non-empty hotels dataset always yields the
unknown-city error carrying the sorted list of available city names (never an
empty success); a known city whose hotels are all eliminated by the
availability filter yields the distinct adjustment-suggestion error; and the
two error shapes are different. -/
theorem unknown_city_error_distinct :
    (∀ (hotels_df : List Hotel) (city : String) (b : Option Int)
        (cat : Option String) (av : Bool),
      hotels_df ≠ [] → city ≠ "" →
      (∀ h ∈ hotels_df, lowerStr h.city ≠ lowerStr (normCity city)) →
      search_hotels hotels_df city b cat av =
        Except.error (HotelsError.unknownCity (normCity city)
          (sortLE strLE (dedupFirst (hotels_df.map Hotel.city)))
          ("Try one of these cities: " ++
            joinWith ", "
              ((sortLE strLE (dedupFirst (hotels_df.map Hotel.city))).take 5)))) ∧
    (∀ (hotels_df : List Hotel) (city : String),
      hotels_df ≠ [] → city ≠ "" →
      (∃ h ∈ hotels_df, lowerStr h.city = lowerStr (normCity city)) →
      (∀ h ∈ hotels_df, lowerStr h.city = lowerStr (normCity city) →
        h.availability = false) →
      search_hotels hotels_df city none none true =
        Except.error (HotelsError.noMatch (normCity city)
          "Try adjusting your budget or category preferences")) ∧
    (∀ c a s c2 s2,
      HotelsError.unknownCity c a s ≠ HotelsError.noMatch c2 s2) := by
  refine ⟨?_, ?_, ?_⟩
  · intro hotels_df city b cat av hdf hcity h3
    unfold search_hotels
    rw [if_neg hcity, if_neg hdf]
    have hfil : hotels_df.filter
        (fun h => decide (lowerStr h.city = lowerStr (normCity city))) = [] := by
      rw [List.filter_eq_nil_iff]
      intro h hh
      simpa using h3 h hh
    simp [hfil]
  · intro hotels_df city hdf hcity hex hall
    unfold search_hotels
    rw [if_neg hcity, if_neg hdf]
    obtain ⟨h0, hh0, heq⟩ := hex
    have hmem : h0 ∈ hotels_df.filter
        (fun h => decide (lowerStr h.city = lowerStr (normCity city))) :=
      List.mem_filter.mpr ⟨hh0, by simpa using heq⟩
    have hne := List.ne_nil_of_mem hmem
    rw [if_neg hne]
    have hfe : (hotels_df.filter
        (fun h => decide (lowerStr h.city = lowerStr (normCity city)))).filter
          (fun h => h.availability) = [] := by
      rw [List.filter_eq_nil_iff]
      intro h hh
      have hm := List.mem_filter.mp hh
      have hav := hall h hm.1 (by simpa using hm.2)
      simp [hav]
    simp [hfe]
  · intro c a s c2 s2 h
    exact HotelsError.noConfusion h

/-- Witness for C7: the unknown-city error on a concrete absent city, and the
distinct filtered-empty error for a city whose only hotel is unavailable. -/
theorem unknown_city_error_distinct_witness :
    search_hotels demoHotels "Atlantis" none none true =
      Except.error (HotelsError.unknownCity "Atlantis" ["London", "Paris"]
        "Try one of these cities: London, Paris") ∧
    search_hotels demoHotelsClosed "rome" none none true =
      Except.error (HotelsError.noMatch "Rome"
        "Try adjusting your budget or category preferences") :=
  ⟨(unknown_city_error_distinct.1 demoHotels "Atlantis" none none true
      (by decide) (by decide) (by decide)).trans (by decide),
   (unknown_city_error_distinct.2.1 demoHotelsClosed "rome"
      (by decide) (by decide) (by decide) (by decide)).trans (by decide)⟩

/-- Witness for C2 at the concrete message `"Plan a BOMB attack"`. -/
theorem high_threat_forces_critical_block_witness :
    (validate_content (wordsOf "Plan a BOMB attack")).is_safe = false ∧
    (validate_content (wordsOf "Plan a BOMB attack")).severity =
      some "critical" ∧
    (validate_content (wordsOf "Plan a BOMB attack")).action = Action.block :=
  high_threat_forces_critical_block (wordsOf "Plan a BOMB attack")
    ⟨["bomb"], by decide, by decide⟩

/-- Every id selected by the per-day category pass is fresh with respect to
the incoming used set, and lands in the outgoing used set. -/
theorem pickByCats_spec (quota : Nat)
    (groups : List (String × List AttractionOut)) :
    ∀ (used : List String) (acc : List AttractionOut),
      (∀ x ∈ used, x ∈ (pickByCats quota groups used acc).2) ∧
      (∀ x ∈ (pickByCats quota groups used acc).1.map AttractionOut.id,
        x ∈ acc.map AttractionOut.id ∨ x ∉ used) ∧
      ((∀ x ∈ acc.map AttractionOut.id, x ∈ used) →
        ∀ x ∈ (pickByCats quota groups used acc).1.map AttractionOut.id,
          x ∈ (pickByCats quota groups used acc).2) := by
  induction groups with
  | nil =>
    intro used acc
    exact ⟨fun x hx => hx, fun x hx => Or.inl hx, fun h => h⟩
  | cons g rest ih =>
    intro used acc
    obtain ⟨c, grp⟩ := g
    cases havail : grp.filter (fun a => decide (a.id ∉ used)) with
    | nil =>
      simp only [pickByCats, havail]
      exact ih used acc
    | cons a tail =>
      simp only [pickByCats, havail]
      by_cases hlen : acc.length < quota
      · simp only [if_pos hlen]
        have ha : a.id ∉ used := by
          have hmem : a ∈ grp.filter (fun a => decide (a.id ∉ used)) := by
            rw [havail]
            exact List.mem_cons_self a tail
          exact of_decide_eq_true (List.mem_filter.mp hmem).2
        obtain ⟨A, B, C⟩ := ih (a.id :: used) (acc ++ [a])
        refine ⟨?_, ?_, ?_⟩
        · intro x hx
          exact A x (List.mem_cons_of_mem _ hx)
        · intro x hx
          rcases B x hx with hacc | hnot
          · rw [List.map_append] at hacc
            rcases List.mem_append.mp hacc with h1 | h2
            · exact Or.inl h1
            · simp at h2
              subst h2
              exact Or.inr ha
          · exact Or.inr (fun hu => hnot (List.mem_cons_of_mem _ hu))
        · intro haccused x hx
          refine C ?_ x hx
          intro y hy
          rw [List.map_append] at hy
          rcases List.mem_append.mp hy with h1 | h2
          · exact List.mem_cons_of_mem _ (haccused y h1)
          · simp at h2
            subst h2
            exact List.mem_cons_self _ _
      · simp only [if_neg hlen]
        exact ih used acc

/-- The fill pass enjoys the same freshness invariants. -/
theorem fillRemaining_spec (pool : List AttractionOut) :
    ∀ (fuel : Nat) (used : List String) (acc : List AttractionOut),
      (∀ x ∈ used, x ∈ (fillRemaining pool fuel used acc).2) ∧
      (∀ x ∈ (fillRemaining pool fuel used acc).1.map AttractionOut.id,
        x ∈ acc.map AttractionOut.id ∨ x ∉ used) ∧
      ((∀ x ∈ acc.map AttractionOut.id, x ∈ used) →
        ∀ x ∈ (fillRemaining pool fuel used acc).1.map AttractionOut.id,
          x ∈ (fillRemaining pool fuel used acc).2) := by
  intro fuel
  induction fuel with
  | zero =>
    intro used acc
    exact ⟨fun x hx => hx, fun x hx => Or.inl hx, fun h => h⟩
  | succ k ih =>
    intro used acc
    cases havail : pool.filter (fun a => decide (a.id ∉ used)) with
    | nil =>
      simp only [fillRemaining, havail]
      exact ⟨fun x hx => hx, fun x hx => Or.inl hx, fun h => h⟩
    | cons a tail =>
      simp only [fillRemaining, havail]
      have ha : a.id ∉ used := by
        have hmem : a ∈ pool.filter (fun a => decide (a.id ∉ used)) := by
          rw [havail]
          exact List.mem_cons_self a tail
        exact of_decide_eq_true (List.mem_filter.mp hmem).2
      obtain ⟨A, B, C⟩ := ih (a.id :: used) (acc ++ [a])
      refine ⟨?_, ?_, ?_⟩
      · intro x hx
        exact A x (List.mem_cons_of_mem _ hx)
      · intro x hx
        rcases B x hx with hacc | hnot
        · rw [List.map_append] at hacc
          rcases List.mem_append.mp hacc with h1 | h2
          · exact Or.inl h1
          · simp at h2
            subst h2
            exact Or.inr ha
        · exact Or.inr (fun hu => hnot (List.mem_cons_of_mem _ hu))
      · intro haccused x hx
        refine C ?_ x hx
        intro y hy
        rw [List.map_append] at hy
        rcases List.mem_append.mp hy with h1 | h2
        · exact List.mem_cons_of_mem _ (haccused y h1)
        · simp at h2
          subst h2
          exact List.mem_cons_self _ _

/-- A single generated day only uses fresh attraction ids, and records all of
them in the outgoing used set. -/
theorem buildDay_spec (pool : List AttractionOut)
    (catGroups : List (String × List AttractionOut)) (quota : Nat)
    (used : List String) :
    (∀ x ∈ used, x ∈ (buildDay pool catGroups quota used).2) ∧
    (∀ x ∈ (buildDay pool catGroups quota used).1.map AttractionOut.id,
      x ∉ used) ∧
    (∀ x ∈ (buildDay pool catGroups quota used).1.map AttractionOut.id,
      x ∈ (buildDay pool catGroups quota used).2) := by
  obtain ⟨PA, PB, PC⟩ := pickByCats_spec quota catGroups used []
  obtain ⟨FA, FB, FC⟩ := fillRemaining_spec pool
    (quota - (pickByCats quota catGroups used []).1.length)
    (pickByCats quota catGroups used []).2
    (pickByCats quota catGroups used []).1
  have hpc : ∀ x ∈ (pickByCats quota catGroups used []).1.map AttractionOut.id,
      x ∈ (pickByCats quota catGroups used []).2 :=
    PC (by intro z hz; simp at hz)
  refine ⟨?_, ?_, ?_⟩
  · intro x hx
    exact FA x (PA x hx)
  · intro x hx
    rcases FB x hx with h1 | h2
    · rcases PB x h1 with h0 | hn
      · simp at h0
      · exact hn
    · exact fun hu => h2 (PA x hu)
  · intro x hx
    exact FC hpc x hx

/-- The day loop produces pairwise-disjoint id sets: each day is fresh with
respect to the incoming used set, every assigned id reaches the final used
set, and the used set grows monotonically. -/
theorem buildDays_spec (pool : List AttractionOut)
    (catGroups : List (String × List AttractionOut)) (quota : Nat) :
    ∀ (k day : Nat) (used : List String),
      (∀ x ∈ used, x ∈ (buildDays pool catGroups quota k day used).2) ∧
      (∀ p ∈ (buildDays pool catGroups quota k day used).1,
        ∀ x ∈ p.2.map AttractionOut.id,
          x ∉ used ∧ x ∈ (buildDays pool catGroups quota k day used).2) ∧
      List.Pairwise
        (fun p q => ∀ x ∈ p.2.map AttractionOut.id,
          x ∉ q.2.map AttractionOut.id)
        (buildDays pool catGroups quota k day used).1 := by
  intro k
  induction k with
  | zero =>
    intro day used
    refine ⟨fun x hx => hx, ?_, List.Pairwise.nil⟩
    intro p hp
    simp [buildDays] at hp
  | succ n ih =>
    intro day used
    obtain ⟨DA, DB, DC⟩ := buildDay_spec pool catGroups quota used
    obtain ⟨RA, RB, RC⟩ := ih (day + 1) (buildDay pool catGroups quota used).2
    simp only [buildDays]
    refine ⟨?_, ?_, ?_⟩
    · intro x hx
      exact RA x (DA x hx)
    · intro p hp
      rcases List.mem_cons.mp hp with hhead | htail
      · subst hhead
        intro x hx
        exact ⟨DB x hx, RA x (DC x hx)⟩
      · intro x hx
        obtain ⟨hnot, hfin⟩ := RB p htail x hx
        exact ⟨fun hu => hnot (DA x hu), hfin⟩
    · refine List.Pairwise.cons ?_ RC
      intro q hq x hx hxq
      exact (RB q hq x hxq).1 (DC x hx)

/-- Curated template days carry no attraction ids, so their disjointness is
vacuous. -/
theorem pairwise_curated (l : List TemplateDay) :
    List.Pairwise (fun d1 d2 => ∀ x ∈ ItinDay.ids d1, x ∉ ItinDay.ids d2)
      (l.map (fun d => ItinDay.curated d.estimated_cost)) := by
  rw [List.pairwise_map]
  induction l with
  | nil => exact List.Pairwise.nil
  | cons a l ih =>
    refine List.Pairwise.cons ?_ ih
    intro b _ x hx
    simp [ItinDay.ids] at hx

/-- Claim C5: for every itinerary produced by `create_itinerary` — curated or
generated — no attraction id is assigned to two different days, and the
reported `total_estimated_cost` is the sum of the per-day `estimated_cost`
values. -/
theorem itinerary_no_repeat_and_total_eq_sum (attractions_df : List Attraction)
    (templates : Templates) (city : String) (duration_days : Nat)
    (interests : Option String) :
    itineraryOk (create_itinerary attractions_df templates city duration_days
      interests) := by
  unfold create_itinerary
  by_cases hc : city = ""
  · simp only [if_pos hc]
    exact trivial
  · rw [if_neg hc]
    by_cases hd : duration_days < 1 ∨ 14 < duration_days
    · rw [if_pos hd]
      exact trivial
    · rw [if_neg hd]
      cases ht : templLookup templates (normCity city) duration_days with
      | some template_itinerary =>
        simp only [ht]
        exact ⟨pairwise_curated template_itinerary, rfl⟩
      | none =>
        simp only [ht]
        cases ha : get_attractions attractions_df (normCity city) none none with
        | error e =>
          exact trivial
        | ok ar =>
          show itineraryOk
            (if ar.attractions.length < duration_days * 2 then
              Except.error (ItinError.insufficientData duration_days
                (normCity city)
                "Try a shorter duration or a different destination")
            else _)
          by_cases hlen : ar.attractions.length < duration_days * 2
          · rw [if_pos hlen]
            exact trivial
          · rw [if_neg hlen]
            constructor
            · rw [List.pairwise_map]
              exact (buildDays_spec ar.attractions _ _ duration_days 1 []).2.2
            · rfl

/-- Non-vacuity of C5: a concrete generated itinerary and a concrete curated
itinerary are actually produced on the demo data. -/
theorem create_itinerary_demo_produces :
    (create_itinerary demoAttractions [] "Paris" 2 none).isOk = true ∧
    itinTotalOf (create_itinerary demoAttractions [] "Paris" 2 none) = 160 ∧
    itinTotalOf (create_itinerary demoAttractions demoTemplates "Paris" 3 none)
      = 300 :=
  ⟨by decide, by decide, by decide⟩

/-- `get_attractions` truncates its successful result to at most 12
attractions (`head(12)`). -/
theorem get_attractions_ok_len_le (attractions_df : List Attraction)
    (city : String) (category : Option String) (fee : Option Int)
    (ar : AttrSuccess)
    (h : get_attractions attractions_df city category fee = Except.ok ar) :
    ar.attractions.length ≤ 12 := by
  simp only [get_attractions] at h
  repeat' split at h
  all_goals try exact Except.noConfusion h
  all_goals injection h with h
  all_goals subst h
  all_goals simp [List.length_take]

/-- Claim C10: with no curated template for the requested `(city, duration)`
pair and a duration of 7–14 days, `create_itinerary` always fails with the
insufficient-attraction-data error whenever the city resolves in the
attractions dataset: the generated path draws from `get_attractions`, which
returns at most 12 attractions, while 7 days already require 14. -/
theorem week_long_generated_itinerary_impossible
    (attractions_df : List Attraction) (templates : Templates) (city : String)
    (duration_days : Nat) (interests : Option String)
    (h7 : 7 ≤ duration_days) (h14 : duration_days ≤ 14)
    (htempl : templLookup templates (normCity city) duration_days = none)
    (hok : (get_attractions attractions_df (normCity city) none none).isOk
      = true) :
    create_itinerary attractions_df templates city duration_days interests =
      Except.error (ItinError.insufficientData duration_days (normCity city)
        "Try a shorter duration or a different destination") := by
  have hc : city ≠ "" := by
    intro he
    subst he
    rw [show normCity "" = "" from rfl] at hok
    unfold get_attractions at hok
    simp [Except.isOk, Except.toBool] at hok
  unfold create_itinerary
  rw [if_neg hc, if_neg (by omega : ¬(duration_days < 1 ∨ 14 < duration_days))]
  simp only [htempl]
  cases ha : get_attractions attractions_df (normCity city) none none with
  | error e =>
    rw [ha] at hok
    simp [Except.isOk, Except.toBool] at hok
  | ok ar =>
    simp only [ha]
    have hlen : ar.attractions.length < duration_days * 2 := by
      have := get_attractions_ok_len_le attractions_df (normCity city) none
        none ar ha
      omega
    rw [if_pos hlen]

/-- Witness for C10: seven days in the demo Paris dataset (4 attractions, no
template) yields exactly the insufficient-data error. -/
theorem week_long_generated_itinerary_impossible_witness :
    create_itinerary demoAttractions [] "Paris" 7 none =
      Except.error (ItinError.insufficientData 7 "Paris"
        "Try a shorter duration or a different destination") :=
  (week_long_generated_itinerary_impossible demoAttractions [] "Paris" 7 none
    (by decide) (by decide) (by decide) (by decide)).trans (by decide)

/-- Error bound of rounding to `d` decimal places. -/
theorem roundTo_abs_le (d : Nat) (x : ℚ) :
    |roundTo d x - x| ≤ 1 / 2 / 10 ^ d := by
  have h10 : (0 : ℚ) < 10 ^ d := by positivity
  have hrw : roundTo d x - x =
      ((round (x * 10 ^ d) : ℤ) - x * 10 ^ d) / 10 ^ d := by
    unfold roundTo
    field_simp
    ring
  rw [hrw, abs_div, abs_of_pos h10, div_le_div_iff_of_pos_right h10,
    abs_sub_comm]
  exact abs_sub_round (x * 10 ^ d)

/-- Every meal rate in the city table, and the default, is at least 20. -/
theorem mealsDaily_ge (c : String) : 20 ≤ mealsDaily c := by
  unfold mealsDaily mealCosts
  repeat' rw [lookupA]
  repeat' split
  all_goals simp

theorem transportDaily_ge (c : String) : 20 ≤ transportDaily c := by
  unfold transportDaily
  split
  · omega
  · omega

theorem avgAttractionCost_nonneg (attractions_df : List Attraction)
    (city1 : String) (days : Nat) :
    0 ≤ avgAttractionCost attractions_df city1 days := by
  unfold avgAttractionCost
  split
  · split
    · norm_num
    · positivity
  · norm_num

/-- The arithmetic core of claim C6, for any non-negative accommodation and
attractions totals and meal/transport totals of at least 20 each. -/
theorem budget_arith (A At M Tr Mi T : ℚ) (hA : 0 ≤ A) (hAt : 0 ≤ At)
    (hM : 20 ≤ M) (hTr : 20 ≤ Tr) (hMi : Mi = (A + At + M + Tr) * (3/20))
    (hT : T = A + At + M + Tr + Mi) :
    |roundTo 1 (A / T * 100) + roundTo 1 (At / T * 100) +
        roundTo 1 (M / T * 100) + roundTo 1 (Tr / T * 100) +
        roundTo 1 (Mi / T * 100) - 100| ≤ 1/4 ∧
    roundTo 2 (T * (7/10)) < roundTo 2 T ∧
    roundTo 2 T < roundTo 2 (T * (3/2)) := by
  have hMi0 : 0 ≤ Mi := by nlinarith
  have hT40 : 40 ≤ T := by nlinarith
  have hT0 : (0 : ℚ) < T := by linarith
  have hTne : T ≠ 0 := ne_of_gt hT0
  have hsum : A / T * 100 + At / T * 100 + M / T * 100 + Tr / T * 100 +
      Mi / T * 100 = 100 := by
    field_simp
    rw [hT]
    ring
  have h1 := abs_le.mp (roundTo_abs_le 1 (A / T * 100))
  have h2 := abs_le.mp (roundTo_abs_le 1 (At / T * 100))
  have h3 := abs_le.mp (roundTo_abs_le 1 (M / T * 100))
  have h4 := abs_le.mp (roundTo_abs_le 1 (Tr / T * 100))
  have h5 := abs_le.mp (roundTo_abs_le 1 (Mi / T * 100))
  have hr7 := abs_le.mp (roundTo_abs_le 2 (T * (7/10)))
  have hrT := abs_le.mp (roundTo_abs_le 2 T)
  have hr15 := abs_le.mp (roundTo_abs_le 2 (T * (3/2)))
  norm_num at h1 h2 h3 h4 h5 hr7 hrT hr15
  refine ⟨abs_le.mpr ⟨by linarith, by linarith⟩, by linarith, by linarith⟩

/-- The budget property holds for the core computation whenever the duration
is at least one day and the mean attraction cost is non-negative. -/
theorem budgetCore_ok (city1 : String) (days : Nat) (cat : String) (hp : Nat)
    (ac : ℚ) (hd : 1 ≤ days) (hac : 0 ≤ ac) :
    budgetOk (Except.ok (budgetCore city1 days cat hp ac)) := by
  have hdq : (1 : ℚ) ≤ (days : ℚ) := by exact_mod_cast hd
  have hmq : (20 : ℚ) ≤ (mealsDaily city1 : ℚ) := by
    exact_mod_cast mealsDaily_ge city1
  have htq : (20 : ℚ) ≤ (transportDaily city1 : ℚ) := by
    exact_mod_cast transportDaily_ge city1
  have hM : (20 : ℚ) ≤ (mealsDaily city1 : ℚ) * days := by nlinarith
  have hTr : (20 : ℚ) ≤ (transportDaily city1 : ℚ) * days := by nlinarith
  have hA : (0 : ℚ) ≤ (hp : ℚ) * days := by positivity
  have hAt : (0 : ℚ) ≤ ac * days * (5/2) := by
    have := mul_nonneg hac (le_trans zero_le_one hdq)
    nlinarith
  exact budget_arith ((hp : ℚ) * days) (ac * days * (5/2))
    ((mealsDaily city1 : ℚ) * days) ((transportDaily city1 : ℚ) * days)
    _ _ hA hAt hM hTr rfl rfl

/-- Claim C6: every successful result of `get_travel_budget_estimate` has its
five percentage shares summing to 100 within rounding tolerance (here within
1/4, five roundings to one decimal place), and its category comparison
strictly ordered `luxury > mid-range > budget` (total × 1.5, × 1.0, × 0.7 of
a total that is at least 40). -/
theorem budget_percentages_and_comparisons (hotels_df : List Hotel)
    (attractions_df : List Attraction) (city : String) (duration_days : Nat)
    (accommodation_category : String) :
    budgetOk (get_travel_budget_estimate hotels_df attractions_df city
      duration_days accommodation_category) := by
  unfold get_travel_budget_estimate
  by_cases h1 : city = ""
  · rw [if_pos h1]
    exact trivial
  · rw [if_neg h1]
    by_cases h2 : duration_days < 1 ∨ 30 < duration_days
    · rw [if_pos h2]
      exact trivial
    · rw [if_neg h2]
      by_cases h3 : accommodation_category = "luxury" ∨
          accommodation_category = "mid-range" ∨
          accommodation_category = "budget"
      · rw [if_pos h3]
        exact budgetCore_ok (normCity city) duration_days
          accommodation_category _ _ (by omega)
          (avgAttractionCost_nonneg attractions_df (normCity city)
            duration_days)
      · rw [if_neg h3]
        exact trivial

/-- Non-vacuity of C6: the demo data produces an actual success. -/
theorem budget_demo_ok :
    (get_travel_budget_estimate demoHotels demoAttractions "Paris" 3
      "mid-range").isOk = true := by decide

/-! ### Session-store lemmas -/

theorem findSession_insert_self (store : List (String × Session))
    (k : String) (s : Session) :
    findSession (insertSession store k s) k = some s := by
  induction store with
  | nil => simp [insertSession, findSession]
  | cons p rest ih =>
    by_cases h : p.1 = k
    · simp [insertSession, h, findSession]
    · simp [insertSession, h, findSession, ih]

theorem findSession_insert_ne (store : List (String × Session))
    (k k2 : String) (s : Session) (h : k2 ≠ k) :
    findSession (insertSession store k s) k2 = findSession store k2 := by
  have hne : ¬ (k = k2) := fun he => h he.symm
  induction store with
  | nil => simp [insertSession, findSession, hne]
  | cons p rest ih =>
    by_cases hp : p.1 = k
    · subst hp
      simp [insertSession, findSession, hne]
    · simp only [insertSession, if_neg hp, findSession]
      by_cases hq : p.1 = k2
      · simp [hq]
      · simp [hq, ih]

theorem findSession_erase (store : List (String × Session)) (k : String) :
    findSession (eraseSession store k) k = none := by
  induction store with
  | nil => rfl
  | cons p rest ih =>
    unfold eraseSession at ih ⊢
    simp only [decide_not] at ih ⊢
    by_cases h : p.1 = k <;> simp [List.filter_cons, h, findSession, ih]

theorem eraseSession_idem (store : List (String × Session)) (k : String) :
    eraseSession (eraseSession store k) k = eraseSession store k := by
  unfold eraseSession
  rw [List.filter_filter]
  simp

/-- An insertion of a session with at most one violation preserves the
store-wide violation bound. -/
theorem inv_after_insert (store : List (String × Session)) (sid : String)
    (s1 : Session) (hs1 : s1.security_violations ≤ 1)
    (hinv : ∀ k s, findSession store k = some s → s.security_violations ≤ 1) :
    ∀ k s, findSession (insertSession store sid s1) k = some s →
      s.security_violations ≤ 1 := by
  intro k s hf
  by_cases hk : k = sid
  · subst hk
    rw [findSession_insert_self] at hf
    injection hf with hf
    subst hf
    exact hs1
  · rw [findSession_insert_ne store sid k s1 hk] at hf
    exact hinv k s hf

theorem applyModelPhase_violations (mp : ModelPhase) (s : Session)
    (u : String) :
    (applyModelPhase mp s u).2.security_violations = s.security_violations := by
  cases mp <;> simp [applyModelPhase]
  case functionCall name argsJson resultJson fallbackInfo second =>
    by_cases h : name ∈ functionNames
    · cases second <;> simp [h]
    · simp [h]

/-- Claim C3: in any session state reachable by the chat endpoint (at most
one recorded violation) and not rate-limited this turn, an unsafe message
with one prior violation resets the session — the stored record returns to
the zeroed `freshSession`, so history length and the violation counter are
both 0 — and the turn answers with the "fresh start" message with
reason `security`; an unsafe message with no prior violation returns the
block message (violations = 1) without touching the history; and the chat
step preserves the store-wide bound `security_violations ≤ 1`, so no
persisted session ever reaches 2. -/
theorem chat_second_violation_resets :
    (∀ (store : List (String × Session)) (mp : ModelPhase) (sid m : String),
      wordsOf m ≠ [] →
      (validate_content (wordsOf m)).is_safe = false →
      ((findSession store sid).getD freshSession).message_count < 50 →
      ((((findSession store sid).getD freshSession).security_violations = 1 →
        (chatStep mp store sid m).1 =
          ChatResponse.securityReset
            "Chat has been reset due to security violations. Let\x27s start fresh with safe travel planning!"
            "security" ∧
        findSession (chatStep mp store sid m).2 sid = some freshSession) ∧
      (((findSession store sid).getD freshSession).security_violations = 0 →
        (chatStep mp store sid m).1 =
          ChatResponse.securityBlocked
            "I can only assist with safe travel planning. Please ask about hotels, attractions, itineraries, or travel advice."
            1 ∧
        findSession (chatStep mp store sid m).2 sid =
          some ⟨((findSession store sid).getD freshSession).messages,
            ((findSession store sid).getD freshSession).message_count + 1,
            ((findSession store sid).getD freshSession).off_topic_warnings,
            1⟩))) ∧
    (∀ (store : List (String × Session)) (mp : ModelPhase) (sid m : String),
      (∀ k s, findSession store k = some s → s.security_violations ≤ 1) →
      ∀ k s, findSession (chatStep mp store sid m).2 k = some s →
        s.security_violations ≤ 1) := by
  constructor
  · intro store mp sid m hm hunsafe hrate
    constructor
    · intro hviol
      have hstep : chatStep mp store sid m =
          (ChatResponse.securityReset
            "Chat has been reset due to security violations. Let\x27s start fresh with safe travel planning!"
            "security",
            insertSession store sid freshSession) := by
        simp only [chatStep]
        rw [if_neg hm,
          if_neg (show ¬(50 <
            ((findSession store sid).getD freshSession).message_count + 1)
            by omega),
          if_pos hunsafe,
          if_pos (show 2 ≤
            ((findSession store sid).getD freshSession).security_violations + 1
            by omega)]
      rw [hstep]
      exact ⟨rfl, findSession_insert_self store sid freshSession⟩
    · intro hviol
      have hstep : chatStep mp store sid m =
          (ChatResponse.securityBlocked
            "I can only assist with safe travel planning. Please ask about hotels, attractions, itineraries, or travel advice."
            (((findSession store sid).getD freshSession).security_violations
              + 1),
            insertSession store sid
              ⟨((findSession store sid).getD freshSession).messages,
                ((findSession store sid).getD freshSession).message_count + 1,
                ((findSession store sid).getD freshSession).off_topic_warnings,
                ((findSession store sid).getD
                  freshSession).security_violations + 1⟩) := by
        simp only [chatStep]
        rw [if_neg hm,
          if_neg (show ¬(50 <
            ((findSession store sid).getD freshSession).message_count + 1)
            by omega),
          if_pos hunsafe,
          if_neg (show ¬(2 ≤
            ((findSession store sid).getD freshSession).security_violations + 1)
            by omega)]
      rw [hstep]
      refine ⟨by rw [hviol], ?_⟩
      rw [findSession_insert_self, hviol]
  · intro store mp sid m hinv
    have hs0 : ((findSession store sid).getD freshSession).security_violations
        ≤ 1 := by
      cases hf : findSession store sid with
      | none => simp [freshSession]
      | some s => simpa using hinv sid s hf
    simp only [chatStep]
    split
    · exact hinv
    · split
      · exact inv_after_insert store sid _ (by simpa using hs0) hinv
      · split
        · split
          · exact inv_after_insert store sid _ (by simp [freshSession]) hinv
          · rename_i hlt
            exact inv_after_insert store sid _ (by simp; omega) hinv
        · split
          · exact inv_after_insert store sid _ (by simpa using hs0) hinv
          · exact inv_after_insert store sid _
              (by rw [applyModelPhase_violations]; simpa using hs0) hinv

/-- Witness for C3: a session with one prior violation, sent the unsafe
message `"bomb"`, is reset to the zeroed record with the fresh-start
response. -/
theorem chat_second_violation_resets_witness :
    (chatStep ModelPhase.apiFailure demoStore1 "s" "bomb").1 =
      ChatResponse.securityReset
        "Chat has been reset due to security violations. Let\x27s start fresh with safe travel planning!"
        "security" ∧
    findSession (chatStep ModelPhase.apiFailure demoStore1 "s" "bomb").2 "s" =
      some freshSession :=
  (chat_second_violation_resets.1 demoStore1 ModelPhase.apiFailure "s" "bomb"
    (by decide) (by decide) (by decide)).1 (by decide)

/-- Amended claim C8: when an unrecovered exception is raised during the
model-interaction phase of a turn, the endpoint's top-level handler returns
the generic service-unavailable error and the session keeps its history,
off-topic warnings and security violations — but the `message_count`
increment applied at the start of the turn persists (the session dict is
mutated in place before the exception), so the state is not exactly as it
was before the turn. -/
theorem chat_exception_generic_error_count_kept
    (store : List (String × Session)) (sid m : String)
    (hm : wordsOf m ≠ [])
    (hsafe : (validate_content (wordsOf m)).is_safe = true)
    (htravel : (validate_content (wordsOf m)).is_travel = true)
    (hrate : ((findSession store sid).getD freshSession).message_count < 50) :
    chatStep ModelPhase.raised store sid m =
      (ChatResponse.serviceUnavailable,
        insertSession store sid
          ⟨((findSession store sid).getD freshSession).messages,
            ((findSession store sid).getD freshSession).message_count + 1,
            ((findSession store sid).getD freshSession).off_topic_warnings,
            ((findSession store sid).getD freshSession).security_violations⟩) := by
  simp only [chatStep]
  rw [if_neg hm,
    if_neg (show ¬(50 <
      ((findSession store sid).getD freshSession).message_count + 1)
      by omega),
    if_neg (show ¬((validate_content (wordsOf m)).is_safe = false)
      by simp [hsafe]),
    if_neg (show ¬((validate_content (wordsOf m)).is_travel = false)
      by simp [htravel])]
  rfl

/-- Witness for the amended C8 at a concrete store and travel message. -/
theorem chat_exception_generic_error_count_kept_witness :
    chatStep ModelPhase.raised demoStoreFresh "s" "trip paris" =
      (ChatResponse.serviceUnavailable, [("s", ⟨[], 1, 0, 0⟩)]) :=
  (chat_exception_generic_error_count_kept demoStoreFresh "s" "trip paris"
    (by decide) (by decide) (by decide) (by decide)).trans (by decide)

/-- Counterexample to C8 as stated: on a turn that raises an unrecovered
exception, the response is the generic error but the stored session state is
not what it was before the turn — `message_count` went from 0 to 1. -/
theorem chat_exception_state_not_restored :
    (chatStep ModelPhase.raised demoStoreFresh "s" "trip paris").1 =
      ChatResponse.serviceUnavailable ∧
    findSession (chatStep ModelPhase.raised demoStoreFresh "s" "trip paris").2
      "s" ≠ findSession demoStoreFresh "s" :=
  ⟨by decide, by decide⟩

/-- Counterexample to C9 as stated: `reset_chat` does not leave a fresh
zeroed record under the key — it deletes the key outright
(`del conversation_sessions[session_id]`), after which `session_status`
reports the session inactive. -/
theorem reset_chat_deletes_key :
    findSession (reset_chat demoStoreReset "default").2 "default" = none ∧
    ¬ (findSession (reset_chat demoStoreReset "default").2 "default" =
      some freshSession) ∧
    session_status (reset_chat demoStoreReset "default").2 "default" =
      StatusResponse.inactive :=
  ⟨by decide, by decide, by decide⟩

/-- Amended claim C9: `reset_chat` removes the key's record from the store
(observably, `session_status` then reports the session inactive; a later
message lazily recreates a zeroed record), always acknowledges success, and
calling it a second time immediately afterwards is a no-op on the store that
returns the same acknowledgement. -/
theorem reset_chat_removes_and_idempotent
    (store : List (String × Session)) (sid : String) :
    (reset_chat store sid).1 = resetAck ∧
    findSession (reset_chat store sid).2 sid = none ∧
    session_status (reset_chat store sid).2 sid = StatusResponse.inactive ∧
    reset_chat (reset_chat store sid).2 sid = reset_chat store sid := by
  refine ⟨rfl, findSession_erase store sid, ?_, ?_⟩
  · unfold session_status
    rw [show (reset_chat store sid).2 = eraseSession store sid from rfl,
      findSession_erase]
  · unfold reset_chat
    rw [eraseSession_idem]

end Travel

